import Mathlib

/-!
Verification of the document-processing pipeline of
stagezero-42/document-processing-api against its natural-language
specification.

The Python sources are shallowly embedded: each relevant Python function is
translated into an executable Lean definition over explicit data (lists of
characters for strings, rationals for coordinates/angles/confidences, explicit
records for backend outputs).  Theorems at the end of the file settle the
spec claims against these definitions.
-/

namespace DocProcessing

/-! ## Python string primitives

The Python sources use str.strip(), str.lower(), str.replace(pat, repl),
"sep".join(parts) and f-string %03d style padding.  These are modelled
character-exactly on `List Char` / `String`. -/

/-- Models Python str.strip(): remove leading and trailing whitespace. -/
def pyStripList (l : List Char) : List Char :=
  ((l.dropWhile Char.isWhitespace).reverse.dropWhile Char.isWhitespace).reverse

/-- Models Python str.strip() on `String`. -/
def pyStrip (s : String) : String :=
  ⟨pyStripList s.data⟩

/-- Models Python str.lower() (ASCII range, which is all the code compares). -/
def pyLower (s : String) : String :=
  ⟨s.data.map Char.toLower⟩

/-- Models Python str.replace(pat, repl): replace every non-overlapping
occurrence, scanning left to right, in a single pass.  The scan consumes
at least one character per step, so fuelling it with the input length
makes the recursion structural without changing what it computes. -/
def pyReplaceAux (pat repl : List Char) : Nat → List Char → List Char
  | 0, l => l
  | _ + 1, [] => []
  | fuel + 1, c :: rest =>
    if !pat.isEmpty && pat.isPrefixOf (c :: rest) then
      repl ++ pyReplaceAux pat repl fuel ((c :: rest).drop pat.length)
    else
      c :: pyReplaceAux pat repl fuel rest

/-- Models Python str.replace on `String`. -/
def pyReplace (s pat repl : String) : String :=
  ⟨pyReplaceAux pat.data repl.data s.data.length s.data⟩

/-- Models the Python format specifier %03d (used as table_count:03d):
decimal digits, left-padded with zeros to a minimum width of three. -/
def fmt03 (n : Nat) : String :=
  let s := toString n
  ⟨List.replicate (3 - s.length) '0' ++ s.data⟩

/-- Decides whether pat occurs as a contiguous sublist of l
(Python substring containment, pat in s). -/
def listInfix (pat : List Char) : List Char → Bool
  | [] => pat.isEmpty
  | c :: rest => pat.isPrefixOf (c :: rest) || listInfix pat rest

/-- Python substring containment on `String`. -/
def strContains (s pat : String) : Bool :=
  listInfix pat.data s.data

/-! ## Image preprocessing: fine deskew
(app/processing/image_processor.py, deskew, lines 13-60)

The image itself is abstract: cv2.warpAffine produces a new pixel array, so
the model tracks images as either a source bitmap or the result of a
rotation applied to an earlier image.  What the Python function computes
exactly - the angle normalisation and the decision whether to rotate at
all - is embedded verbatim.  The skew detection (Otsu threshold +
cv2.minAreaRect over foreground coordinates) is numeric computer vision on
the pixels; its outcome is therefore an input to the model: none when no
foreground coordinates were found (coords.size == 0), some raw for the
detected raw rectangle angle. -/

/-- An OpenCV image: a source bitmap, or the output of cv2.warpAffine
rotating an earlier image by an angle (degrees). -/
inductive CvImage where
  | src (id : Nat) : CvImage
  | warped (base : CvImage) (angle : ℚ) : CvImage
  deriving DecidableEq

/-- Number of rotations an image has gone through. -/
def CvImage.depth : CvImage → Nat
  | .src _ => 0
  | .warped base _ => base.depth + 1

/-- The angle normalisation in deskew:
if angle < -45: angle = -(90 + angle) else: angle = -angle. -/
def normalizeDeskewAngle (raw : ℚ) : ℚ :=
  if raw < -45 then -(90 + raw) else -raw

/-- app/processing/image_processor.py, deskew (lines 13-60).
detection is the outcome of the foreground-coordinate search:
none models coords.size == 0 (return the input unchanged), some raw models
cv2.minAreaRect(coords)[-1] returning the raw angle.  The function then
normalises the angle, skips rotation when abs(angle) < 0.1, and otherwise
rotates the input image by the normalised angle via cv2.warpAffine. -/
def deskew (image_cv : CvImage) (detection : Option ℚ) : CvImage :=
  match detection with
  | none => image_cv
  | some raw =>
    let angle := normalizeDeskewAngle raw
    if |angle| < 1/10 then image_cv
    else CvImage.warped image_cv angle

/-! ## OCR extraction
(app/processing/image_processor.py, process_image_file, lines 167-233)

pytesseract.image_to_data returns a pandas DataFrame; each row carries a
confidence (float, -1 for structural no-text rows) and a text cell that can
be NaN.  A DataFrame row is embedded as a record; the NaN text case is
`none`.  The pipeline after the backend call is embedded statement by
statement:
  ocr_data_df = ocr_data_df[ocr_data_df.conf != -1]
  ocr_data_df[text] = ocr_data_df[text].astype(str)
  extracted_text = " ".join(ocr_data_df[text].tolist()).strip()
and the word_level_details loop. -/

/-- One row of the pytesseract image_to_data DataFrame. -/
structure OcrRow where
  conf : ℚ
  text : Option String
  left : Int
  top : Int
  width : Int
  height : Int
  deriving DecidableEq

/-- pandas .astype(str) on a cell: NaN stringifies to "nan". -/
def pandasAstypeStr : Option String → String
  | none => "nan"
  | some s => s

/-- ocr_data_df[ocr_data_df.conf != -1]: drop rows carrying the -1
confidence sentinel. -/
def dropSentinelRows (rows : List OcrRow) : List OcrRow :=
  rows.filter (fun r => r.conf ≠ -1)

/-- extracted_text = " ".join(ocr_data_df[text].tolist()).strip(), computed
after the sentinel filter and the astype(str) conversion. -/
def extractedText (rows : List OcrRow) : String :=
  pyStrip (String.intercalate " " ((dropSentinelRows rows).map
    (fun r => pandasAstypeStr r.text)))

/-- One entry of word_level_details. -/
structure WordDetail where
  text : String
  confidence : ℚ
  left : Int
  top : Int
  width : Int
  height : Int
  deriving DecidableEq

/-- The word_level_details loop (image_processor.py lines 208-218): iterate
the filtered DataFrame, keep rows whose stringified text strips to
non-empty, and build the detail record - including the source's
conditional float(row conf) if row conf != -1 else 0.0. -/
def wordLevelDetails (rows : List OcrRow) : List WordDetail :=
  (dropSentinelRows rows).filterMap (fun r =>
    let t := pandasAstypeStr r.text
    if pyStrip t ≠ "" then
      some (WordDetail.mk t (if r.conf ≠ -1 then r.conf else 0)
        r.left r.top r.width r.height)
    else none)

/-- Written from the spec claim's words, for comparison with
`extractedText`: "extractedText equals the remaining non-empty word texts
concatenated with single-space separators and then stripped". -/
def extractedTextClaim (rows : List OcrRow) : String :=
  pyStrip (String.intercalate " " (((dropSentinelRows rows).map
    (fun r => pandasAstypeStr r.text)).filter (fun t => t ≠ "")))

/-! ## PDF processing
(app/processing/pdf_processor.py, process_pdf_file, lines 6-124)

The PyMuPDF backend objects are embedded as data: a page provides its text
blocks (already sorted by get_text("blocks", sort=True)) and the tables in
the enumeration order of page.find_tables(); a table provides its bounding
box and the row matrix returned by Table.extract(), whose cells may be
None.  Everything the Python function computes from that data is embedded
step by step, including its two load-bearing quirks:
  - table ids are assigned while enumerating the finder (before the
    geometric sort of page elements), so ids follow finder order while the
    emitted text follows sorted order;
  - the detail dict at line 101 reads the mutable table_count variable,
    which at that point holds the running total through the current page,
    not the id number of the table being emitted. -/

/-- A detected table as seen through PyMuPDF: bbox plus Table.extract()
output (cells can be None). -/
structure FitzTable where
  x0 : ℚ
  y0 : ℚ
  x1 : ℚ
  y1 : ℚ
  cells : List (List (Option String))
  deriving DecidableEq

/-- A text block tuple (x0, y0, x1, y1, text, block_no, block_type) from
page.get_text("blocks", sort=True); block_no is never read by the code. -/
structure TextBlock where
  x0 : ℚ
  y0 : ℚ
  x1 : ℚ
  y1 : ℚ
  content : String
  blockType : Nat
  deriving DecidableEq

/-- One PDF page: blocks in the order get_text returns them, tables in the
order page.find_tables() enumerates them. -/
structure PdfPage where
  blocks : List TextBlock
  tables : List FitzTable
  deriving DecidableEq

/-- A PDF document is its list of pages. -/
abbrev PdfDoc := List PdfPage

/-- page_elements entries (pdf_processor.py lines 45-65): a discriminated
text/table pair carrying the sort coordinates. -/
inductive PdfElement where
  | text (x0 yStart : ℚ) (content : String)
  | tablePlaceholder (x0 yStart : ℚ) (id : String) (table : FitzTable)
  deriving DecidableEq

/-- The sort key of line 70: (el y_start, el bbox 0). -/
def PdfElement.sortKey : PdfElement → ℚ × ℚ
  | .text x0 y _ => (y, x0)
  | .tablePlaceholder x0 y _ _ => (y, x0)

/-- Strict lexicographic comparison of sort keys. -/
def keyLt (a b : ℚ × ℚ) : Bool :=
  a.1 < b.1 || (a.1 = b.1 && a.2 < b.2)

/-- Insert an element into an already-built prefix, after every element it
is not strictly below; folding this over a list yields Python's stable
list.sort. -/
def stableInsert (lt : α → α → Bool) (a : α) : List α → List α
  | [] => [a]
  | b :: bs => if lt a b then a :: b :: bs else b :: stableInsert lt a bs

/-- Python list.sort(key=...): stable, ascending. -/
def stableSort (lt : α → α → Bool) (l : List α) : List α :=
  l.foldl (fun acc a => stableInsert lt a acc) []

/-- table{table_count:03d} (pdf_processor.py line 58). -/
def tableId (count : Nat) : String :=
  "table" ++ fmt03 count

/-- Text elements of a page (lines 45-52): keep block_type == 0 blocks,
strip their content. -/
def pageTextElements (p : PdfPage) : List PdfElement :=
  (p.blocks.filter (fun b => b.blockType = 0)).map
    (fun b => .text b.x0 b.y0 (pyStrip b.content))

/-- Table elements of a page (lines 55-65): enumerate the finder, giving
the i-th table of the page the global number c0 + i + 1, where c0 tables
were counted on earlier pages. -/
def pageTableElements (c0 : Nat) (tables : List FitzTable) : List PdfElement :=
  tables.enum.map (fun it =>
    .tablePlaceholder it.2.x0 it.2.y0 (tableId (c0 + it.1 + 1)) it.2)

/-- page_elements after the sort of line 70. -/
def pageElementsSorted (c0 : Nat) (p : PdfPage) : List PdfElement :=
  stableSort (fun a b => keyLt a.sortKey b.sortKey)
    (pageTextElements p ++ pageTableElements c0 p.tables)

/-- str(cell) if cell is not None else "" (lines 92-97). -/
def strCell : Option String → String
  | none => ""
  | some s => s

/-- First extracted row, stringified: the table headers (line 92);
an empty extraction yields []. -/
def tableHeaders (cells : List (List (Option String))) : List String :=
  (cells.headD []).map strCell

/-- Rows after the first, stringified: the table data (lines 94-97). -/
def tableData (cells : List (List (Option String))) : List (List String) :=
  cells.tail.map (fun row => row.map strCell)

/-- One entry of tables_data (lines 99-106). -/
structure TableDetail where
  id : String
  position : Nat
  caption : Option String
  headers : List String
  data : List (List String)
  page_number : Nat
  deriving DecidableEq

/-- The text parts a sorted element list contributes to the page (walk of
lines 73-81): non-empty text content verbatim, and for each table the part
newline [[INSERT_TABLE:id]] newline. -/
def elementParts : List PdfElement → List String
  | [] => []
  | .text _ _ content :: es =>
      (if content ≠ "" then [content] else []) ++ elementParts es
  | .tablePlaceholder _ _ id _ :: es =>
      ("\n[[INSERT_TABLE:" ++ id ++ "]]\n") :: elementParts es

/-- The tables_data entries the walk appends (lines 77-107).  walkCount is
the value the mutable table_count variable holds during the walk: the
running total of tables through the current page. -/
def elementDetails (walkCount pageNumber : Nat) :
    List PdfElement → List TableDetail
  | [] => []
  | .text _ _ _ :: es => elementDetails walkCount pageNumber es
  | .tablePlaceholder _ _ id t :: es =>
      TableDetail.mk id walkCount none (tableHeaders t.cells)
        (tableData t.cells) pageNumber
        :: elementDetails walkCount pageNumber es

/-- The placeholder tokens the walk embeds into the page text, without the
surrounding newlines of their part, in emission order. -/
def elementTokens : List PdfElement → List String
  | [] => []
  | .text _ _ _ :: es => elementTokens es
  | .tablePlaceholder _ _ id _ :: es =>
      ("[[INSERT_TABLE:" ++ id ++ "]]") :: elementTokens es

/-- Per-page text (lines 109-110): pages contributing no parts are
skipped; otherwise the parts are joined with single newlines. -/
def docPageTexts (c0 : Nat) : PdfDoc → List String
  | [] => []
  | p :: ps =>
    let parts := elementParts (pageElementsSorted c0 p)
    (if parts ≠ [] then [String.intercalate "\n" parts] else [])
      ++ docPageTexts (c0 + p.tables.length) ps

/-- tables_data accumulated across pages; page_number is 1-based
(line 105), and every detail of a page records position
c0 + tables-on-page (the line 101 read of table_count). -/
def docDetails (c0 pageNumber : Nat) : PdfDoc → List TableDetail
  | [] => []
  | p :: ps =>
    elementDetails (c0 + p.tables.length) pageNumber (pageElementsSorted c0 p)
      ++ docDetails (c0 + p.tables.length) (pageNumber + 1) ps

/-- All placeholder tokens of the document in the order they are embedded
into text_with_placeholders. -/
def docTokens (c0 : Nat) : PdfDoc → List String
  | [] => []
  | p :: ps =>
    elementTokens (pageElementsSorted c0 p)
      ++ docTokens (c0 + p.tables.length) ps

/-- os.path.basename. -/
def pyBasename (path : String) : String :=
  ⟨(path.data.reverse.takeWhile (fun c => c ≠ '/')).reverse⟩

/-- The result dict of process_pdf_file (lines 115-119). -/
structure PdfResult where
  text_with_placeholders : String
  tables_data : List TableDetail
  source_basename : String
  deriving DecidableEq

/-- app/processing/pdf_processor.py, process_pdf_file (lines 6-124): join
pages with double newlines, collapse triple newlines once, strip. -/
def process_pdf_file (file_path : String) (doc : PdfDoc) : PdfResult :=
  let final_text := String.intercalate "\n\n" (docPageTexts 0 doc)
  PdfResult.mk (pyStrip (pyReplace final_text "\n\n\n" "\n\n"))
    (docDetails 0 1 doc) (pyBasename file_path)

/-! ## The endpoint's PDF call and the table-strategy settings
(app/main.py lines 143-149, app/processing/pdf_processor.py line 6 and 40)

main.py builds pdf_extraction_settings (table_strategy, text_tolerance,
remove_empty_rows) and calls
  process_pdf_file(file_path, settings=pdf_extraction_settings)
while the def in pdf_processor.py is process_pdf_file(file_path) - a
single parameter.  Python call binding for such a plain signature is
embedded to settle what that call does, and the argument list of the
page.find_tables() call at line 40 is recorded. -/

/-- Parameter names of def process_pdf_file(file_path) at
pdf_processor.py line 6. -/
def processPdfFileParams : List String := ["file_path"]

/-- Keyword-argument names of the process_pdf_file call at main.py
line 149. -/
def endpointPdfCallKwargs : List String := ["settings"]

/-- Python call binding for a plain def (no *args or **kwargs): the
positional arguments fill the first nPos parameters and every keyword
argument must name one of the remaining parameters; otherwise the call
raises TypeError. -/
def pythonCallBinds (params : List String) (nPos : Nat)
    (kwargs : List String) : Bool :=
  decide (nPos ≤ params.length)
    && kwargs.all (fun k => (params.drop nPos).contains k)

/-- The strategy argument of the page.find_tables() call at
pdf_processor.py line 40: the call has no arguments, so no strategy
override reaches the backend. -/
def findTablesStrategyArg : Option String := none

/-- The text tolerance argument of the same call: also absent. -/
def findTablesToleranceArg : Option ℚ := none

/-! ## The endpoint's PDF OCR-fallback orchestration
(app/main.py, process_document_endpoint, lines 150-199)

Given the direct-extraction result, the endpoint decides whether to attempt
an OCR fallback, runs a try/except/finally around the rendering + OCR, and
keeps the direct result unless OCR produced non-empty text.  The
filesystem and backend effects are embedded as an environment that says
which of the fallible steps raises, plus the text OCR would return; the
branch is then a deterministic function of the direct text and that
environment.  Scratch-file state is threaded explicitly so that the
finally clause of lines 191-196 is a real state transition (os.remove
itself is wrapped in its own try/except in the source and is modelled as
succeeding). -/

/-- main.py line 50. -/
def PDF_OCR_FALLBACK_MIN_TEXT_THRESHOLD : Nat := 100

/-- Which fallible steps of the fallback block raise, and what OCR
returns when it runs. -/
structure FallbackEnv where
  pageCount : Nat
  openFails : Bool
  loadPageFails : Bool
  renderFails : Bool
  saveFails : Bool
  ocrFails : Bool
  ocrText : String
  deriving DecidableEq

/-- Which result the endpoint reports for the PDF. -/
inductive PdfMethod where
  | direct
  | ocr
  deriving DecidableEq

/-- State of the fallback block: whether temp_ocr_image_path has been
assigned, whether the scratch file exists on disk, whether an exception is
pending, which result stands, and the pixmap render request that was
issued (page index, dpi), if any. -/
structure FallbackState where
  pathAssigned : Bool
  fileExists : Bool
  exnPending : Bool
  method : PdfMethod
  renderCall : Option (Nat × Nat)
  deriving DecidableEq

/-- The try body, main.py lines 160-186, executed left to right until a
step raises:
  fitz.open; page-count check; load_page(0); assign the scratch path;
  get_pixmap(dpi=300); pix.save (creates the scratch file); OCR;
  replace the result if the OCR text strips non-empty. -/
def fallbackTryBody (env : FallbackEnv) : FallbackState :=
  let s0 : FallbackState := ⟨false, false, false, .direct, none⟩
  if env.openFails then { s0 with exnPending := true }
  else if env.pageCount = 0 then s0
  else if env.loadPageFails then { s0 with exnPending := true }
  else
    let s1 := { s0 with pathAssigned := true, renderCall := some (0, 300) }
    if env.renderFails then { s1 with exnPending := true }
    else if env.saveFails then { s1 with exnPending := true }
    else
      let s2 := { s1 with fileExists := true }
      if env.ocrFails then { s2 with exnPending := true }
      else if pyStrip env.ocrText ≠ "" then { s2 with method := .ocr }
      else s2

/-- except Exception (lines 187-190): any pending exception is swallowed;
processed_data still holds the direct-extraction result. -/
def fallbackExcept (s : FallbackState) : FallbackState :=
  if s.exnPending then { s with exnPending := false, method := .direct }
  else s

/-- finally (lines 191-196): if the scratch path was assigned and the file
exists, remove it. -/
def fallbackFinally (s : FallbackState) : FallbackState :=
  if s.pathAssigned && s.fileExists then { s with fileExists := false }
  else s

/-- Outcome of the whole PDF branch, seen from the caller. -/
structure PdfEndpointOutcome where
  ocrAttempted : Bool
  renderCall : Option (Nat × Nat)
  method : PdfMethod
  raised : Bool
  scratchFileLeft : Bool
  deriving DecidableEq

/-- main.py lines 150-199: the threshold test around the fallback block.
directText is direct_pdf_data text_with_placeholders. -/
def processPdfEndpoint (directText : String) (env : FallbackEnv) :
    PdfEndpointOutcome :=
  if (pyStrip directText).length < PDF_OCR_FALLBACK_MIN_TEXT_THRESHOLD then
    let s := fallbackFinally (fallbackExcept (fallbackTryBody env))
    ⟨true, s.renderCall, s.method, s.exnPending, s.fileExists⟩
  else
    ⟨false, none, .direct, false, false⟩

/-! ## DOCX processing
(app/processing/docx_processor.py, process_docx_file, lines 11-85)

The document body is the ordered list of its block elements: w:p
paragraphs and w:tbl tables.  The source pulls each table's cell texts
from document.tables[table_count - 1], which is exactly the table_count-th
w:tbl element of the body, so the embedded table block carries its rows
directly and the bound check of line 56 always holds. -/

/-- A block element of the document body. -/
inductive DocxBlock where
  | para (text : String)
  | table (rows : List (List String))
  deriving DecidableEq

/-- The result dict of process_docx_file (lines 74-78). -/
structure DocxResult where
  text_with_placeholders : String
  named_tables : List (String × List (List String))
  source_filename : String
  deriving DecidableEq

/-- The body walk of lines 32-67: paragraphs contribute their text,
tables bump the counter, contribute the part newline [[insert-id]] newline
(line 41), and record (id, rows) in named_tables. -/
def docxWalk (count : Nat) :
    List DocxBlock → List String × List (String × List (List String))
  | [] => ([], [])
  | .para t :: bs =>
      let rest := docxWalk count bs
      (t :: rest.1, rest.2)
  | .table rows :: bs =>
      let id := "table" ++ fmt03 (count + 1)
      let rest := docxWalk (count + 1) bs
      (("\n[[insert-" ++ id ++ "]]\n") :: rest.1, (id, rows) :: rest.2)

/-- app/processing/docx_processor.py, process_docx_file (lines 11-85):
join the parts with newlines, collapse triple newlines once, strip. -/
def process_docx_file (file_path : String) (body : List DocxBlock) :
    DocxResult :=
  let walked := docxWalk 0 body
  DocxResult.mk
    (pyStrip (pyReplace (String.intercalate "\n" walked.1) "\n\n\n" "\n\n"))
    walked.2 file_path

/-! ## Extension extraction and format dispatch
(app/core/utils.py lines 8-15, app/core/constants.py line 5,
app/main.py lines 141-207) -/

/-- filename.rsplit(".", 1)[1]: the text after the last dot. -/
def pyRsplitDotLast (s : String) : String :=
  ⟨(s.data.reverse.takeWhile (fun c => c ≠ '.')).reverse⟩

/-- app/core/utils.py, get_file_extension (lines 8-15). -/
def get_file_extension (filename : String) : String :=
  if filename.data.contains '.' then pyLower (pyRsplitDotLast filename)
  else ""

/-- app/core/constants.py line 5 (the set is only membership-tested). -/
def SUPPORTED_IMAGE_EXTENSIONS : List String :=
  ["png", "jpg", "jpeg", "tif", "tiff", "bmp", "webp"]

/-- Which processing path the endpoint takes for a filename. -/
inductive Dispatch where
  | docx
  | pdf
  | image
  | unsupported
  deriving DecidableEq

/-- The format dispatch of process_document_endpoint
(main.py lines 141-207). -/
def dispatchFor (filename : String) : Dispatch :=
  let file_extension := get_file_extension filename
  if file_extension = "docx" then .docx
  else if file_extension = "pdf" then .pdf
  else if SUPPORTED_IMAGE_EXTENSIONS.contains file_extension then .image
  else .unsupported

/-- Total number of tables the finder reports across the document. -/
def numTables (doc : PdfDoc) : Nat :=
  (doc.map (fun p => p.tables.length)).sum

/-- The id component of a page element, when it is a table placeholder. -/
def tableIdOf : PdfElement → Option String
  | .text _ _ _ => none
  | .tablePlaceholder _ _ id _ => some id

/-- Written from the spec claim's words, for comparison with
`wordLevelDetails`: word details whose confidence is the backend row's
confidence directly, with no sentinel-substitution branch. -/
def wordLevelDetailsNoFallback (rows : List OcrRow) : List WordDetail :=
  (dropSentinelRows rows).filterMap (fun r =>
    let t := pandasAstypeStr r.text
    if pyStrip t ≠ "" then
      some (WordDetail.mk t r.conf r.left r.top r.width r.height)
    else none)

/-! ## Helper lemmas -/

/-- A warpAffine output is never the image it was computed from. -/
theorem warped_ne (img : CvImage) (a : ℚ) : CvImage.warped img a ≠ img := by
  intro h
  have hd := congrArg CvImage.depth h
  simp [CvImage.depth] at hd

/-- A list all of whose members equal one value is sorted. -/
theorem sorted_of_all_eq {l : List Nat} (v : Nat)
    (h : ∀ x ∈ l, x = v) : l.Sorted (· ≤ ·) := by
  induction l with
  | nil => simp
  | cons a t ih =>
    refine List.sorted_cons.mpr ⟨?_, ih (fun x hx => h x (List.mem_cons_of_mem a hx))⟩
    intro b hb
    rw [h a (List.mem_cons_self a t), h b (List.mem_cons_of_mem a hb)]

theorem stableInsert_perm (lt : α → α → Bool) (a : α) (l : List α) :
    (stableInsert lt a l).Perm (a :: l) := by
  induction l with
  | nil => simp [stableInsert]
  | cons b t ih =>
    simp only [stableInsert]
    split
    · exact List.Perm.refl _
    · exact (List.Perm.cons b ih).trans (List.Perm.swap a b t)

theorem stableSort_perm (lt : α → α → Bool) (l : List α) :
    (stableSort lt l).Perm l := by
  suffices h : ∀ (l acc : List α),
      (l.foldl (fun acc a => stableInsert lt a acc) acc).Perm (acc ++ l) by
    simpa using h l []
  intro l
  induction l with
  | nil => simp
  | cons a t ih =>
    intro acc
    simp only [List.foldl_cons]
    refine (ih (stableInsert lt a acc)).trans ?_
    have h1 : (stableInsert lt a acc ++ t).Perm ((a :: acc) ++ t) :=
      (stableInsert_perm lt a acc).append_right t
    refine h1.trans ?_
    simpa using (@List.perm_append_comm _ [a] acc).append_right t

/-- The walk emits its placeholder tokens and its tables_data entries in
lockstep: one token per entry, wrapping the entry's id. -/
theorem elementTokens_eq_map_details (wc pn : Nat) (es : List PdfElement) :
    elementTokens es = (elementDetails wc pn es).map
      (fun d => "[[INSERT_TABLE:" ++ d.id ++ "]]") := by
  induction es with
  | nil => rfl
  | cons e t ih =>
    cases e with
    | text x y c => simpa [elementTokens, elementDetails] using ih
    | tablePlaceholder x y id tbl =>
      simpa [elementTokens, elementDetails] using ih

/-- Every detail the walk builds records the same position: the value of
table_count during the walk. -/
theorem elementDetails_position (wc pn : Nat) (es : List PdfElement) :
    ∀ d ∈ elementDetails wc pn es, d.position = wc := by
  induction es with
  | nil => simp [elementDetails]
  | cons e t ih =>
    cases e with
    | text x y c => simpa [elementDetails] using ih
    | tablePlaceholder x y id tbl =>
      intro d hd
      simp only [elementDetails, List.mem_cons] at hd
      rcases hd with h | h
      · rw [h]
      · exact ih d h

/-- The ids of the walk's details are the table-placeholder ids of the
element list, in order. -/
theorem elementDetails_ids (wc pn : Nat) (es : List PdfElement) :
    (elementDetails wc pn es).map TableDetail.id = es.filterMap tableIdOf := by
  induction es with
  | nil => rfl
  | cons e t ih =>
    cases e with
    | text x y c => simpa [elementDetails, tableIdOf] using ih
    | tablePlaceholder x y id tbl =>
      simpa [elementDetails, tableIdOf] using ih

/-- Text elements carry no table id. -/
theorem filterMap_tableIdOf_textElements (p : PdfPage) :
    (pageTextElements p).filterMap tableIdOf = [] := by
  simp [pageTextElements, List.filterMap_map, tableIdOf, Function.comp]

theorem filterMap_some_eq_map (f : α → β) (l : List α) :
    l.filterMap (fun a => some (f a)) = l.map f := by
  induction l with
  | nil => rfl
  | cons a t ih => simp [List.filterMap_cons, ih]

theorem enum_map_fst_fun (l : List α) (f : Nat → β) :
    l.enum.map (fun it => f it.1) = (List.range l.length).map f := by
  rw [List.enum_eq_zip_range]
  have h : ((List.range l.length).zip l).map (fun it => f it.1)
      = (((List.range l.length).zip l).map Prod.fst).map f := by
    rw [List.map_map]
    rfl
  rw [h, List.map_fst_zip _ _ (by simp)]

/-- The table elements of a page carry ids c0+1 .. c0+k in finder order. -/
theorem filterMap_tableIdOf_tableElements (c0 : Nat) (ts : List FitzTable) :
    (pageTableElements c0 ts).filterMap tableIdOf
      = (List.range ts.length).map (fun i => tableId (c0 + i + 1)) := by
  rw [pageTableElements, List.filterMap_map]
  have h : (tableIdOf ∘ fun it : Nat × FitzTable =>
      PdfElement.tablePlaceholder it.2.x0 it.2.y0 (tableId (c0 + it.1 + 1)) it.2)
      = fun it : Nat × FitzTable => some (tableId (c0 + it.1 + 1)) := rfl
  rw [h, filterMap_some_eq_map]
  exact enum_map_fst_fun ts (fun i => tableId (c0 + i + 1))

/-- The ids of a page's details are a permutation of the ids its finder
enumeration assigned. -/
theorem pageDetails_ids_perm (c0 wc pn : Nat) (p : PdfPage) :
    ((elementDetails wc pn (pageElementsSorted c0 p)).map TableDetail.id).Perm
      ((List.range p.tables.length).map (fun i => tableId (c0 + i + 1))) := by
  rw [elementDetails_ids]
  have hperm := (stableSort_perm (fun a b => keyLt a.sortKey b.sortKey)
    (pageTextElements p ++ pageTableElements c0 p.tables)).filterMap tableIdOf
  refine hperm.trans ?_
  rw [List.filterMap_append, filterMap_tableIdOf_textElements,
    filterMap_tableIdOf_tableElements]
  simp

/-- The ids across the whole document are a permutation of
table(c0+1) .. table(c0+numTables). -/
theorem docDetails_ids_perm (ps : PdfDoc) :
    ∀ c0 pn, ((docDetails c0 pn ps).map TableDetail.id).Perm
      ((List.range (numTables ps)).map (fun i => tableId (c0 + i + 1))) := by
  induction ps with
  | nil => intro c0 pn; simp [docDetails, numTables]
  | cons p ps ih =>
    intro c0 pn
    rw [docDetails, List.map_append]
    have hrange : numTables (p :: ps) = p.tables.length + numTables ps := by
      simp [numTables]
    rw [hrange, List.range_add, List.map_append, List.map_map]
    refine List.Perm.append (pageDetails_ids_perm c0 (c0 + p.tables.length) pn p) ?_
    refine (ih (c0 + p.tables.length) (pn + 1)).trans ?_
    refine List.Perm.of_eq (List.map_congr_left ?_)
    intro i hi
    simp only [Function.comp]
    congr 1
    omega

/-- Every position across the document is at least c0 and at most the
final table count. -/
theorem docDetails_position_bounds (ps : PdfDoc) :
    ∀ c0 pn, ∀ d ∈ docDetails c0 pn ps,
      c0 ≤ d.position ∧ d.position ≤ c0 + numTables ps := by
  induction ps with
  | nil => intro c0 pn d hd; simp [docDetails] at hd
  | cons p ps ih =>
    intro c0 pn d hd
    rw [docDetails, List.mem_append] at hd
    have hrange : numTables (p :: ps) = p.tables.length + numTables ps := by
      simp [numTables]
    rcases hd with h | h
    · have := elementDetails_position (c0 + p.tables.length) pn
        (pageElementsSorted c0 p) d h
      omega
    · have := ih (c0 + p.tables.length) (pn + 1) d h
      omega

/-- The positions, read in tables_data order, never decrease. -/
theorem docDetails_positions_sorted (ps : PdfDoc) :
    ∀ c0 pn, ((docDetails c0 pn ps).map TableDetail.position).Sorted (· ≤ ·) := by
  induction ps with
  | nil => intro c0 pn; simp [docDetails]
  | cons p ps ih =>
    intro c0 pn
    rw [docDetails, List.map_append]
    refine List.pairwise_append.mpr ⟨?_, ih (c0 + p.tables.length) (pn + 1), ?_⟩
    · refine sorted_of_all_eq (c0 + p.tables.length) ?_
      intro x hx
      rcases List.mem_map.mp hx with ⟨d, hd, hdx⟩
      rw [← hdx]
      exact elementDetails_position _ _ _ d hd
    · intro x hx y hy
      rcases List.mem_map.mp hx with ⟨d, hd, hdx⟩
      rcases List.mem_map.mp hy with ⟨e, he, hey⟩
      have hdp := elementDetails_position _ _ _ d hd
      have hep := (docDetails_position_bounds ps (c0 + p.tables.length) (pn + 1) e he).1
      omega

/-- Tokens across the document are the ids of tables_data, in the same
order, wrapped in the placeholder syntax. -/
theorem docTokens_eq_map_details (ps : PdfDoc) :
    ∀ c0 pn, docTokens c0 ps = (docDetails c0 pn ps).map
      (fun d => "[[INSERT_TABLE:" ++ d.id ++ "]]") := by
  induction ps with
  | nil => intro c0 pn; rfl
  | cons p ps ih =>
    intro c0 pn
    rw [docTokens, docDetails, List.map_append,
      elementTokens_eq_map_details (c0 + p.tables.length) pn, ih (c0 + p.tables.length) (pn + 1)]

/-! ## Claim theorems -/

/-- C1: the caller-configured table strategy is never applied to the
table-detection backend.  The endpoint's call
process_pdf_file(file_path, settings=pdf_extraction_settings) cannot bind
against def process_pdf_file(file_path) - it raises TypeError - and the
processor's own backend call page.find_tables() carries no strategy and no
text tolerance, so neither the lines_strict default, nor the
backend-default pass-through, nor the unrecognized-value fallback, nor the
tolerance forwarding claimed exists in the code. -/
theorem c1_table_strategy_never_applied :
    pythonCallBinds processPdfFileParams 1 endpointPdfCallKwargs = false
      ∧ findTablesStrategyArg = none
      ∧ findTablesToleranceArg = none := by
  decide

/-- C2: for every PDF document, the walk embeds into the text exactly one
placeholder token per tables_data entry - the exact string
[[INSERT_TABLE:id]] with that entry's id, no spaces - in tables_data
order; the ids are precisely the zero-padded counters
table001..tableN (up to the page-internal finder-versus-geometry
permutation); and the position values, read along the order the tokens
appear in the text, never decrease. -/
theorem c2_placeholder_tokens_match_tables (fp : String) (doc : PdfDoc) :
    docTokens 0 doc = ((process_pdf_file fp doc).tables_data).map
        (fun d => "[[INSERT_TABLE:" ++ d.id ++ "]]")
      ∧ (((process_pdf_file fp doc).tables_data).map
          TableDetail.position).Sorted (· ≤ ·)
      ∧ (((process_pdf_file fp doc).tables_data).map TableDetail.id).Perm
          ((List.range (numTables doc)).map (fun i => tableId (i + 1))) := by
  refine ⟨docTokens_eq_map_details doc 0 1,
    docDetails_positions_sorted doc 0 1, ?_⟩
  have h := docDetails_ids_perm doc 0 1
  simpa using h

/-- C3: counter-evaluation refuting positions exactly 1..N.  On a
single-page document with two detected tables, the walk reads the mutable
table_count variable after the page's enumeration finished, so both
tables_data entries record position 2: the positions are [2, 2], not a
permutation of 1..2. -/
theorem c3_positions_not_one_to_n :
    ((process_pdf_file "doc.pdf"
        [PdfPage.mk []
          [FitzTable.mk 0 10 10 15 [[some "h1", some "h2"], [some "d1", some "d2"]],
           FitzTable.mk 0 20 10 25 [[some "h3", some "h4"], [some "d3", some "d4"]]]]
      ).tables_data).map TableDetail.position = [2, 2]
      ∧ ¬ ([2, 2] : List Nat).Perm [1, 2] := by
  constructor
  · decide
  · decide

/-- C5 counterexample: a detected raw angle of -60 degrees normalises to
-30 degrees, whose absolute value exceeds 25, yet deskew rotates the
image rather than leaving it pixel-identical: the claimed 25-degree no-op
bound does not exist in the code. -/
theorem c5_large_angle_still_rotates :
    25 < |normalizeDeskewAngle (-60)|
      ∧ deskew (CvImage.src 0) (some (-60)) ≠ CvImage.src 0 := by
  have h1 : normalizeDeskewAngle (-60) = -30 := by
    norm_num [normalizeDeskewAngle]
  have h2 : |(-30 : ℚ)| = 30 := by
    rw [abs_of_neg (by norm_num)]
    norm_num
  constructor
  · rw [h1, h2]
    norm_num
  · simp only [deskew, h1]
    rw [if_neg (by rw [h2]; norm_num)]
    exact warped_ne _ _

/-- C5 amended: an absent detection or a normalised angle below 0.1
degrees in absolute value leaves the image unchanged, and any normalised
angle of absolute value at least 0.1 degrees - with no upper bound -
produces a rotated image. -/
theorem c5_deskew_noop_only_below_tolerance (img : CvImage) (raw : ℚ) :
    deskew img none = img
      ∧ (|normalizeDeskewAngle raw| < 1/10 → deskew img (some raw) = img)
      ∧ (1/10 ≤ |normalizeDeskewAngle raw| →
          deskew img (some raw) = CvImage.warped img (normalizeDeskewAngle raw)
            ∧ deskew img (some raw) ≠ img) := by
  refine ⟨rfl, ?_, ?_⟩
  · intro h
    simp only [deskew]
    rw [if_pos h]
  · intro h
    have hn : ¬ |normalizeDeskewAngle raw| < 1/10 := not_lt.mpr h
    simp only [deskew]
    rw [if_neg hn]
    exact ⟨rfl, warped_ne img _⟩

/-- C5 witness: a 5-degree skew is corrected by an actual rotation. -/
theorem c5_deskew_noop_only_below_tolerance_witness :
    deskew (CvImage.src 1) (some (-5))
        = CvImage.warped (CvImage.src 1) (normalizeDeskewAngle (-5))
      ∧ deskew (CvImage.src 1) (some (-5)) ≠ CvImage.src 1 :=
  (c5_deskew_noop_only_below_tolerance (CvImage.src 1) (-5)).2.2 (by
    have h1 : normalizeDeskewAngle (-5) = 5 := by
      norm_num [normalizeDeskewAngle]
    rw [h1, abs_of_nonneg (by norm_num)]
    norm_num)

/-- Running the whole try/except/finally of the fallback block: no
exception stays pending, the scratch file is gone, any render request was
for page 0 at 300 DPI, and the OCR result stands only when every step
succeeded and the OCR text stripped non-empty. -/
theorem fallback_run_spec (env : FallbackEnv) :
    (fallbackFinally (fallbackExcept (fallbackTryBody env))).exnPending = false
      ∧ (fallbackFinally (fallbackExcept (fallbackTryBody env))).fileExists = false
      ∧ ((fallbackFinally (fallbackExcept (fallbackTryBody env))).renderCall = none
          ∨ (fallbackFinally (fallbackExcept (fallbackTryBody env))).renderCall
              = some (0, 300))
      ∧ ((fallbackFinally (fallbackExcept (fallbackTryBody env))).method
            = PdfMethod.ocr
          → env.openFails = false ∧ env.loadPageFails = false
            ∧ env.renderFails = false ∧ env.saveFails = false
            ∧ env.ocrFails = false ∧ pyStrip env.ocrText ≠ "") := by
  rcases env with ⟨pc, o, l, r, s, oc, t⟩
  cases o <;> cases l <;> cases r <;> cases s <;> cases oc <;>
    by_cases hpc : pc = 0 <;> by_cases ht : pyStrip t = "" <;>
      simp_all [fallbackTryBody, fallbackExcept, fallbackFinally]

/-- C4: the endpoint attempts the OCR fallback exactly when the stripped
direct-extraction text is shorter than the 100-character threshold; any
pixmap render the attempt issues is for page index 0 at 300 DPI; and at
or above the threshold none of the fallback machinery runs. -/
theorem c4_ocr_fallback_iff_short_text (directText : String)
    (env : FallbackEnv) :
    ((processPdfEndpoint directText env).ocrAttempted = true
        ↔ (pyStrip directText).length < PDF_OCR_FALLBACK_MIN_TEXT_THRESHOLD)
      ∧ (∀ pg dpi,
          (processPdfEndpoint directText env).renderCall = some (pg, dpi)
            → pg = 0 ∧ dpi = 300)
      ∧ (PDF_OCR_FALLBACK_MIN_TEXT_THRESHOLD ≤ (pyStrip directText).length
          → processPdfEndpoint directText env
              = PdfEndpointOutcome.mk false none PdfMethod.direct false false) := by
  by_cases h :
      (pyStrip directText).length < PDF_OCR_FALLBACK_MIN_TEXT_THRESHOLD
  · refine ⟨by simp [processPdfEndpoint, h], ?_, ?_⟩
    · intro pg dpi hrc
      have hrc' : (fallbackFinally (fallbackExcept (fallbackTryBody env))).renderCall
          = some (pg, dpi) := by
        simpa [processPdfEndpoint, h] using hrc
      rcases (fallback_run_spec env).2.2.1 with hn | hs
      · rw [hn] at hrc'
        exact absurd hrc' (by simp)
      · rw [hs] at hrc'
        have := Option.some.inj hrc'
        exact ⟨(congrArg Prod.fst this).symm, (congrArg Prod.snd this).symm⟩
    · intro h'
      exact absurd h (not_lt.mpr h')
  · refine ⟨by simp [processPdfEndpoint, h], ?_, ?_⟩
    · intro pg dpi hrc
      simp [processPdfEndpoint, h] at hrc
    · intro h'
      simp [processPdfEndpoint, h]

/-- C4 witness: a fully-successful environment renders page 0 at 300 DPI
below the threshold, and a 100-character direct text suppresses the whole
fallback. -/
theorem c4_ocr_fallback_iff_short_text_witness :
    ((0 : Nat) = 0 ∧ (300 : Nat) = 300)
      ∧ processPdfEndpoint
          "xxxxxxxxxxxxxxxxxxxxxxxxxxxxxxxxxxxxxxxxxxxxxxxxxxxxxxxxxxxxxxxxxxxxxxxxxxxxxxxxxxxxxxxxxxxxxxxxxxxx"
          (FallbackEnv.mk 1 false false false false false "w")
        = PdfEndpointOutcome.mk false none PdfMethod.direct false false :=
  ⟨(c4_ocr_fallback_iff_short_text ""
      (FallbackEnv.mk 1 false false false false false "w")).2.1 0 300 (by decide),
   (c4_ocr_fallback_iff_short_text
      "xxxxxxxxxxxxxxxxxxxxxxxxxxxxxxxxxxxxxxxxxxxxxxxxxxxxxxxxxxxxxxxxxxxxxxxxxxxxxxxxxxxxxxxxxxxxxxxxxxxx"
      (FallbackEnv.mk 1 false false false false false "w")).2.2 (by decide)⟩

/-- C8: the PDF branch never lets a fallback exception escape, the scratch
raster file never survives the finally clause, and the OCR result replaces
the direct one only when every fallback step succeeded - so any rendering
or OCR failure leaves the direct-extraction result standing. -/
theorem c8_fallback_soft_failure_and_cleanup (directText : String)
    (env : FallbackEnv) :
    (processPdfEndpoint directText env).raised = false
      ∧ (processPdfEndpoint directText env).scratchFileLeft = false
      ∧ ((processPdfEndpoint directText env).method = PdfMethod.ocr
          → env.openFails = false ∧ env.loadPageFails = false
            ∧ env.renderFails = false ∧ env.saveFails = false
            ∧ env.ocrFails = false ∧ pyStrip env.ocrText ≠ "") := by
  by_cases h :
      (pyStrip directText).length < PDF_OCR_FALLBACK_MIN_TEXT_THRESHOLD
  · have hspec := fallback_run_spec env
    refine ⟨by simpa [processPdfEndpoint, h] using hspec.1,
      by simpa [processPdfEndpoint, h] using hspec.2.1, ?_⟩
    intro hm
    exact hspec.2.2.2 (by simpa [processPdfEndpoint, h] using hm)
  · refine ⟨by simp [processPdfEndpoint, h],
      by simp [processPdfEndpoint, h], ?_⟩
    intro hm
    simp [processPdfEndpoint, h] at hm

/-- C8 witness: in the all-success environment the branch reports the OCR
result, with no exception, no leftover scratch file, and the implication's
conclusion instantiated. -/
theorem c8_fallback_soft_failure_and_cleanup_witness :
    (FallbackEnv.mk 1 false false false false false "hello").openFails = false
      ∧ (FallbackEnv.mk 1 false false false false false "hello").loadPageFails = false
      ∧ (FallbackEnv.mk 1 false false false false false "hello").renderFails = false
      ∧ (FallbackEnv.mk 1 false false false false false "hello").saveFails = false
      ∧ (FallbackEnv.mk 1 false false false false false "hello").ocrFails = false
      ∧ pyStrip (FallbackEnv.mk 1 false false false false false "hello").ocrText ≠ "" :=
  (c8_fallback_soft_failure_and_cleanup ""
    (FallbackEnv.mk 1 false false false false false "hello")).2.2 (by decide)

/-- C6 counterexample: a surviving backend row with empty text is included
in the join, so extractedText carries a double space where the claim's
join of non-empty texts has a single one. -/
theorem c6_empty_text_breaks_join :
    extractedText
        [OcrRow.mk 90 (some "a") 0 0 0 0, OcrRow.mk 50 (some "") 0 0 0 0,
         OcrRow.mk 80 (some "b") 0 0 0 0] = "a  b"
      ∧ extractedTextClaim
        [OcrRow.mk 90 (some "a") 0 0 0 0, OcrRow.mk 50 (some "") 0 0 0 0,
         OcrRow.mk 80 (some "b") 0 0 0 0] = "a b"
      ∧ ("a  b" : String) ≠ "a b" := by
  refine ⟨by decide, by decide, by decide⟩

/-- C6 amended: rows carrying the -1 confidence sentinel are discarded,
and extractedText joins all surviving stringified texts - empty ones
included - with single-space separators before stripping; this coincides
with the claim's join of the non-empty texts exactly when every surviving
text is non-empty. -/
theorem c6_extracted_text_joins_all_survivors (rows : List OcrRow) :
    (∀ r ∈ dropSentinelRows rows, r.conf ≠ -1)
      ∧ ((∀ r ∈ dropSentinelRows rows, pandasAstypeStr r.text ≠ "")
          → extractedText rows = extractedTextClaim rows) := by
  constructor
  · intro r hr
    have h := List.of_mem_filter hr
    simpa using h
  · intro h
    unfold extractedText extractedTextClaim
    congr 1
    congr 1
    rw [List.filter_eq_self.mpr]
    intro t ht
    rcases List.mem_map.mp ht with ⟨r, hr, hrt⟩
    simpa [← hrt] using h r hr

/-- C6 witness: on a survivor list with non-empty texts the two joins
agree. -/
theorem c6_extracted_text_joins_all_survivors_witness :
    extractedText [OcrRow.mk 95 (some "x") 0 0 0 0]
      = extractedTextClaim [OcrRow.mk 95 (some "x") 0 0 0 0] :=
  (c6_extracted_text_joins_all_survivors
    [OcrRow.mk 95 (some "x") 0 0 0 0]).2 (by decide)

/-- C7: counter-evaluation of the DOCX scenario.  On the body
paragraph "A", 2x2 table, paragraph "B", the processor emits the token
[[insert-table001]] - not [[INSERT_TABLE:table001]] - and returns a
named_tables mapping of raw rows instead of a tables_data list of
id/position/headers/data objects. -/
theorem c7_docx_placeholder_format_diverges :
    (process_docx_file "scenario.docx"
        [DocxBlock.para "A", DocxBlock.table [["H1", "H2"], ["D1", "D2"]],
         DocxBlock.para "B"]).text_with_placeholders
        = "A\n\n[[insert-table001]]\n\nB"
      ∧ strContains
          (process_docx_file "scenario.docx"
            [DocxBlock.para "A", DocxBlock.table [["H1", "H2"], ["D1", "D2"]],
             DocxBlock.para "B"]).text_with_placeholders
          "[[INSERT_TABLE:table001]]" = false
      ∧ (process_docx_file "scenario.docx"
          [DocxBlock.para "A", DocxBlock.table [["H1", "H2"], ["D1", "D2"]],
           DocxBlock.para "B"]).named_tables
        = [("table001", [["H1", "H2"], ["D1", "D2"]])] := by
  refine ⟨by decide, by decide, by decide⟩

/-- Scanning from the left, takeWhile of "not a dot" over a dot-free list
followed by a dot takes exactly that list. -/
theorem takeWhile_ne_dot_append (post rest : List Char) (h : '.' ∉ post) :
    (post ++ '.' :: rest).takeWhile (fun c => c ≠ '.') = post := by
  induction post with
  | nil => simp
  | cons a t ih =>
    have ha : a ≠ '.' := fun e => h (by rw [e]; exact List.mem_cons_self '.' t)
    simp only [List.cons_append, List.takeWhile_cons]
    rw [if_pos (by simpa using ha)]
    rw [ih (fun hm => h (List.mem_cons_of_mem a hm))]

/-- rsplit(".", 1)[1] on a name of the form pre ++ "." ++ post with a
dot-free post yields post. -/
theorem pyRsplitDotLast_append (pre post : List Char) (h : '.' ∉ post) :
    pyRsplitDotLast ⟨pre ++ '.' :: post⟩ = ⟨post⟩ := by
  unfold pyRsplitDotLast
  congr 1
  show ((pre ++ '.' :: post).reverse.takeWhile (fun c => c ≠ '.')).reverse = post
  rw [List.reverse_append, List.reverse_cons, List.append_assoc]
  have hrev : '.' ∉ post.reverse := by simpa using h
  rw [show ['.'] ++ pre.reverse = '.' :: pre.reverse from rfl]
  rw [takeWhile_ne_dot_append post.reverse pre.reverse hrev]
  exact List.reverse_reverse post

/-- C9: the extension driving the dispatch is the lowercased text after
the last dot (stated over an arbitrary decomposition of the filename as
pre ++ "." ++ dot-free post), so extensions are matched
case-insensitively - a .PDF file is dispatched to the PDF path, a .PNG
file to the image path - and a filename without a dot yields the
unsupported-format error. -/
theorem c9_extension_dispatch :
    (∀ pre post : List Char, '.' ∉ post →
        get_file_extension ⟨pre ++ '.' :: post⟩ = pyLower ⟨post⟩)
      ∧ (∀ name : String, '.' ∉ name.data
          → dispatchFor name = Dispatch.unsupported)
      ∧ dispatchFor "scan.PDF" = Dispatch.pdf
      ∧ dispatchFor "photo.PNG" = Dispatch.image := by
  refine ⟨?_, ?_, by decide, by decide⟩
  · intro pre post h
    rw [get_file_extension,
      if_pos (List.elem_iff.mpr (by simp)), pyRsplitDotLast_append pre post h]
  · intro name h
    have hext : get_file_extension name = "" := by
      rw [get_file_extension, if_neg (by simpa using h)]
    simp [dispatchFor, hext, SUPPORTED_IMAGE_EXTENSIONS]

/-- C9 witness: a concrete uppercase extension is extracted lowercased,
and a dot-free name is rejected. -/
theorem c9_extension_dispatch_witness :
    get_file_extension ⟨['a'] ++ '.' :: ['P', 'D', 'F']⟩
        = pyLower ⟨['P', 'D', 'F']⟩
      ∧ dispatchFor "README" = Dispatch.unsupported :=
  ⟨c9_extension_dispatch.1 ['a'] ['P', 'D', 'F'] (by decide),
   c9_extension_dispatch.2.1 "README" (by decide)⟩

/-- C10: every word-level detail is built from a backend row that survived
the conf != -1 filter, so its confidence is never the -1 sentinel, and the
0.0-substitution branch is unreachable: the details equal those of a
variant without that branch. -/
theorem c10_word_confidence_never_sentinel (rows : List OcrRow) :
    (∀ d ∈ wordLevelDetails rows, d.confidence ≠ -1)
      ∧ wordLevelDetails rows = wordLevelDetailsNoFallback rows := by
  constructor
  · intro d hd
    rcases List.mem_filterMap.mp hd with ⟨r, hr, heq⟩
    have hconf : r.conf ≠ -1 := by
      have h := List.of_mem_filter hr
      simpa using h
    by_cases ht : pyStrip (pandasAstypeStr r.text) ≠ ""
    · rw [if_pos ht] at heq
      have hd' := Option.some.inj heq
      rw [← hd']
      simpa [if_pos hconf] using hconf
    · rw [if_neg ht] at heq
      exact absurd heq (by simp)
  · refine List.filterMap_congr ?_
    intro r hr
    have hconf : r.conf ≠ -1 := by
      have h := List.of_mem_filter hr
      simpa using h
    simp only [if_pos hconf]

/-- C10 witness: a concrete surviving row yields a detail whose
confidence is its backend confidence, not the sentinel. -/
theorem c10_word_confidence_never_sentinel_witness :
    (WordDetail.mk "hi" 96 1 2 3 4).confidence ≠ -1 :=
  (c10_word_confidence_never_sentinel
      [OcrRow.mk 96 (some "hi") 1 2 3 4]).1
    (WordDetail.mk "hi" 96 1 2 3 4) (by decide)

end DocProcessing
